import Mathlib

/-!
Verification of the field-level extraction engine of `ExampleScrapingCode.py`.

The Python source is shallowly embedded: pure text/URL helpers become Lean
functions over `String` (represented through its `List Char` data), the
BeautifulSoup document is an abstract tree carrying exactly the attributes the
code reads, and the Selenium tier is a function of an explicit environment
describing what the live DOM and the driver would answer at each step.
-/

-- ---------------------------------------------------------------------------
-- Python string primitives used by the source
-- ---------------------------------------------------------------------------

/-- Whitespace set of the Python `\s` regex class and `str.strip` or
`str.split`, restricted to the ASCII range (the only range the scraped
strings contain). -/
def pyIsSpace (c : Char) : Bool :=
  c = ' ' || c = '\t' || c = '\n' || c = '\x0b' || c = '\x0c' || c = '\r'

/-- Characters of `s.strip()`. -/
def stripL (l : List Char) : List Char :=
  ((l.dropWhile pyIsSpace).reverse.dropWhile pyIsSpace).reverse

/-- Python `s.strip()`. -/
def pyStrip (s : String) : String := ⟨stripL s.data⟩

/-- Collapse every maximal whitespace run to one space, as
`re.sub(r"\s+", " ", s)` does.  The Bool argument records whether the
previous character belonged to a run that was already emitted. -/
def collapseWsAux : Bool → List Char → List Char
  | _, [] => []
  | prevSpace, c :: rest =>
    if pyIsSpace c then
      if prevSpace then collapseWsAux true rest
      else ' ' :: collapseWsAux true rest
    else c :: collapseWsAux false rest

/-- Source `clean_text`: `re.sub(r"\s+", " ", (s or "").strip())`. -/
def clean_text (s : String) : String := ⟨collapseWsAux false (stripL s.data)⟩

/-- Nat-level core of Python `str.lower` for the character ranges the site
data can contain: ASCII letters and the Latin-1 letter block, plus the
dotted or breve Turkish letters appearing in the source's transliteration
table.  Other code points are left unchanged. -/
def lowerNat (n : Nat) : Nat :=
  if 65 ≤ n ∧ n ≤ 90 then n + 32
  else if (192 ≤ n ∧ n ≤ 222) ∧ n ≠ 215 then n + 32
  else if n = 286 then 287
  else if n = 350 then 351
  else n

/-- Python `str.lower` on one character (see `lowerNat`). -/
def pyLowerChar (c : Char) : Char := Char.ofNat (lowerNat c.toNat)

/-- Python `str.lower`. -/
def pyLower (s : String) : String := ⟨s.data.map pyLowerChar⟩

/-- One step of the source's fixed transliteration chain
`.replace("×","x").replace("ç","c").replace("ğ","g").replace("ı","i")
.replace("ö","o").replace("ş","s").replace("ü","u")`; the patterns are
single characters and no replacement produces another pattern, so the
chain is a single character map. -/
def translitChar (c : Char) : Char :=
  if c = '×' then 'x'
  else if c = 'ç' then 'c'
  else if c = 'ğ' then 'g'
  else if c = 'ı' then 'i'
  else if c = 'ö' then 'o'
  else if c = 'ş' then 's'
  else if c = 'ü' then 'u'
  else c

/-- Character class kept by `re.sub(r"[^a-z0-9\s_\-\.x]", "", t)`. -/
def slugKeep (c : Char) : Bool :=
  ('a' ≤ c && c ≤ 'z') || ('0' ≤ c && c ≤ '9') || pyIsSpace c ||
  c = '_' || c = '-' || c = '.' || c = 'x'

/-- Python `s.split()`: split on whitespace runs, dropping empty tokens.
The accumulator holds the current token reversed. -/
def splitWsAux (cur : List Char) : List Char → List String
  | [] => if cur.isEmpty then [] else [⟨cur.reverse⟩]
  | c :: rest =>
    if pyIsSpace c then
      if cur.isEmpty then splitWsAux [] rest
      else (⟨cur.reverse⟩ : String) :: splitWsAux [] rest
    else splitWsAux (c :: cur) rest

/-- Python `s.split()`. -/
def pySplitWs (s : String) : List String := splitWsAux [] s.data

/-- Source `slugify`: lower-case, map `×` and the six Turkish accented
letters, strip everything outside `[a-z0-9\s_\-.x]`, and join the
whitespace-separated tokens with underscores. -/
def slugify (text : String) : String :=
  let t1 := pyLower text
  let t2 : String := ⟨(t1.data.map translitChar).filter slugKeep⟩
  String.intercalate "_" (pySplitWs t2)

-- ---------------------------------------------------------------------------
-- URL helpers: startswith, substring, urlparse query, parse_qs
-- ---------------------------------------------------------------------------

def startsWithL : List Char → List Char → Bool
  | [], _ => true
  | _ :: _, [] => false
  | p :: ps, c :: cs => p = c && startsWithL ps cs

/-- Python `s.startswith(pre)`. -/
def pyStartsWith (pre s : String) : Bool := startsWithL pre.data s.data

def hasSubL (pat : List Char) : List Char → Bool
  | [] => pat.isEmpty
  | c :: cs => startsWithL pat (c :: cs) || hasSubL pat cs

/-- Python `pat in s` on strings. -/
def pyContainsSub (pat s : String) : Bool := hasSubL pat.data s.data

/-- Characters strictly before the first occurrence of `ch`. -/
def beforeChar (ch : Char) : List Char → List Char
  | [] => []
  | c :: cs => if c = ch then [] else c :: beforeChar ch cs

/-- Characters strictly after the first occurrence of `ch` (empty when
`ch` is absent). -/
def afterChar (ch : Char) : List Char → List Char
  | [] => []
  | c :: cs => if c = ch then cs else afterChar ch cs

/-- The `query` component of `urlparse`: the fragment (everything from the
first `#`) is removed first, then the query is whatever follows the first
`?`. -/
def urlQuery (url : String) : String := ⟨afterChar '?' (beforeChar '#' url.data)⟩

/-- Split a list at every occurrence of `sep` (Python `str.split(sep)`). -/
def splitOnChar (sep : Char) : List Char → List (List Char)
  | [] => [[]]
  | c :: cs =>
    if c = sep then [] :: splitOnChar sep cs
    else match splitOnChar sep cs with
      | [] => [[c]]
      | t :: ts => (c :: t) :: ts

def hexDigitVal (c : Char) : Option Nat :=
  if '0' ≤ c && c ≤ '9' then some (c.toNat - 48)
  else if 'a' ≤ c && c ≤ 'f' then some (c.toNat - 87)
  else if 'A' ≤ c && c ≤ 'F' then some (c.toNat - 55)
  else none

/-- Percent-decoding as in `urllib.parse.unquote`, modelling each `%XX`
escape as the code point `XX` (the data handled by the program contains no
multi-byte escape sequences).  Invalid escapes are left untouched. -/
def pctDecode : List Char → List Char
  | '%' :: a :: b :: rest =>
    match hexDigitVal a, hexDigitVal b with
    | some x, some y => Char.ofNat (16 * x + y) :: pctDecode rest
    | _, _ => '%' :: pctDecode (a :: b :: rest)
  | c :: rest => c :: pctDecode rest
  | [] => []

/-- Decoding applied by `parse_qsl` to each name and value:
`unquote(part.replace('+', ' '))`. -/
def qsDecode (l : List Char) : String :=
  ⟨pctDecode (l.map fun c => if c = '+' then ' ' else c)⟩

/-- `urllib.parse.parse_qsl` with its default arguments: split the query on
`&`, skip empty fields, skip fields without `=`, skip fields whose value is
empty, and decode names and values. -/
def parseQsl (qs : String) : List (String × String) :=
  (splitOnChar '&' qs.data).filterMap fun field =>
    if field.isEmpty then none
    else if field.contains '=' then
      let name := beforeChar '=' field
      let value := afterChar '=' field
      if value.isEmpty then none
      else some (qsDecode name, qsDecode value)
    else none

/-- First value of `parse_qs(...)[key]`, i.e. the value of the first field
named `key` (`None` when absent). -/
def qsFirstValue (key : String) (pairs : List (String × String)) : Option String :=
  (pairs.find? fun p => p.1 == key).map (·.2)

/-- Site origin constant `BASE` of the source. -/
def BASE : String := "https://www.examplesite.com"

/-- Source `_unwrap_proxied`: empty stays empty; protocol-relative input is
prefixed with `https:`; site-relative input is prefixed with `BASE`; when the
result mentions the image proxy endpoint and a `url=` field, the first
nonempty `url` query value is returned stripped; otherwise the resolved
input is returned.  The `try` around the query parsing is modelled by the
parser being total. -/
def unwrapProxied (src : String) : String :=
  if src = "" then ""
  else
    let s1 := if pyStartsWith "//" src then "https:" ++ src else src
    let s2 := if pyStartsWith "/" s1 then BASE ++ s1 else s1
    if pyContainsSub "api/image" s2 && pyContainsSub "url=" s2 then
      match qsFirstValue "url" (parseQsl (urlQuery s2)) with
      | some v => if v ≠ "" then pyStrip v else s2
      | none => s2
    else s2

-- ---------------------------------------------------------------------------
-- Structural texture extraction (extract_textures_bs4)
-- ---------------------------------------------------------------------------

/-- An element matched by `img.picture__image, source[srcset]`, carrying the
attributes the program reads.  `currentSrc` is the post-render resolved
source property, populated only in the live DOM for `img` elements. -/
structure TexNode where
  name : String
  src : Option String
  dataSrc : Option String
  srcset : Option String
  currentSrc : Option String
deriving DecidableEq

/-- Python `a or b` where `a` is `node.get(attr)`: `None` and the empty
string both fall through to `b`. -/
def attrOr (a : Option String) (dflt : String) : String :=
  match a with
  | some s => if s = "" then dflt else s
  | none => dflt

/-- Candidate URL the bs4 loop derives from one node: `src`/`data-src`
stripped, falling back to the first entry of `srcset` for `source` nodes. -/
def nodeRawSrc (n : TexNode) : String :=
  let s := pyStrip (attrOr n.src (attrOr n.dataSrc ""))
  if s = "" && n.name == "source" then
    let ss := pyStrip ⟨beforeChar ',' (attrOr n.srcset "").data⟩
    if ss ≠ "" then (pySplitWs ss).headD "" else ""
  else s

/-- Python `r in seen` for the list mirroring the `seen` set. -/
def memb (r : String) : List String → Bool
  | [] => false
  | a :: as => (a == r) || memb r as

/-- Loop body `if real and real not in seen: seen.add(real); urls.append(real)`. -/
def dedupStep (acc : List String) (r : String) : List String :=
  if !(r == "") && !(memb r acc) then acc ++ [r] else acc

/-- The parts of a product document that `extract_textures_bs4` queries:
either no `section.ExampleSection`, or no `div.ExampleContainer` inside it,
or the node list that the container's selector yields. -/
inductive TexDoc where
  | noSection
  | noContainer
  | withNodes (nodes : List TexNode)
deriving DecidableEq

def joinBar (l : List String) : String := String.intercalate " | " l

/-- Source `extract_textures_bs4`. -/
def extract_textures_bs4 : TexDoc → String
  | .noSection => ""
  | .noContainer => ""
  | .withNodes ns => joinBar ((ns.map fun n => unwrapProxied (nodeRawSrc n)).foldl dedupStep [])

/-- Declarative first-seen-order de-duplication, written from the
specification wording: keep each string's first occurrence, drop the later
ones.  Used to state what the imperative seen-set loop computes. -/
def firstSeenDedup : List String → List String
  | [] => []
  | x :: xs => x :: firstSeenDedup (xs.filter fun y => !(y == x))
termination_by l => l.length
decreasing_by
  simp only [List.length_cons]
  exact Nat.lt_succ_of_le (List.length_filter_le _ _)

-- ---------------------------------------------------------------------------
-- Structural detail extraction (extract_detail_block_bs4 / extract_details_bs4)
-- ---------------------------------------------------------------------------

/-- One element matched by `.exampleProductDetailsItem` / `.details__item`:
its `details__item--X` modifier suffix (when such a class is present), the
text of its `h4 .title__content` heading (when present), and the raw texts
of its `.details__item__list li` and `.paragraph, p` descendants. -/
structure DetailItem where
  modifier : Option String
  heading : Option String
  listItems : List String
  paragraphs : List String
deriving DecidableEq

/-- The parts of a product document the detail extraction queries:
whether a node with class `exampleProductDetails` exists (the details root,
which contains every item), and the list of detail items in document
order. -/
structure DetailsDoc where
  hasRoot : Bool
  items : List DetailItem
deriving DecidableEq

/-- Result of `select_one` in `extract_detail_block_bs4`: the details root
node or one item node.  The root contains all items, so its `li` and
paragraph selections are the concatenation over all items. -/
inductive BlockRef where
  | rootRef
  | itemRef (item : DetailItem)
deriving DecidableEq

/-- Source `extract_detail_block_bs4`.  Note the modifier branch selects the
fixed class `.exampleProductDetails`: the `mod` argument appears in no
selector (the f-string in the source has no placeholder), it only gates the
branch by truthiness. -/
def extract_detail_block_bs4 (doc : DetailsDoc) (titles_en_it : List String)
    (mod : Option String) : Option BlockRef :=
  let byTitle : Option BlockRef :=
    doc.items.findSome? fun itm =>
      match itm.heading with
      | none => none
      | some h =>
        if (titles_en_it.map fun t => pyLower t).contains (pyLower (clean_text h)) then
          some (.itemRef itm)
        else none
  match mod with
  | some m => if m ≠ "" && doc.hasRoot then some .rootRef else byTitle
  | none => byTitle

/-- List-item texts of a block, cleaned, empties dropped (`extract_list_items_text`). -/
def cleanNonempty (t : String) : Option String :=
  let c := clean_text t
  if c = "" then none else some c

/-- Source `extract_list_items_text` applied to a `select_one` result. -/
def extract_list_items_text (doc : DetailsDoc) : Option BlockRef → List String
  | none => []
  | some .rootRef => ((doc.items.map (·.listItems)).join).filterMap cleanNonempty
  | some (.itemRef i) => i.listItems.filterMap cleanNonempty

/-- JavaScript `Array.join(' ')` and Python `" ".join`. -/
def joinSpace : List String → String
  | [] => ""
  | [x] => x
  | x :: y :: ys => x ++ " " ++ joinSpace (y :: ys)

/-- The `Characteristics_text` computation of `extract_details_bs4`:
cleaned nonempty paragraph texts of the block joined with one space. -/
def blockParasText (doc : DetailsDoc) : Option BlockRef → String
  | none => ""
  | some .rootRef => joinSpace (((doc.items.map (·.paragraphs)).join).filterMap cleanNonempty)
  | some (.itemRef i) => joinSpace (i.paragraphs.filterMap cleanNonempty)

/-- The detail field groups as the Python dict holds them. -/
structure PyDetails where
  formats : List String
  finishing : List String
  thickness : List String
  characteristicsText : String
deriving DecidableEq

/-- Source `extract_details_bs4`. -/
def extract_details_bs4 (doc : DetailsDoc) : PyDetails :=
  let formats_block := extract_detail_block_bs4 doc ["Formats", "Formati", "Formato"] (some "formati")
  let finishing_block := extract_detail_block_bs4 doc ["Finishing", "Finiture", "Finitura"] (some "finiture")
  let thickness_block := extract_detail_block_bs4 doc ["Thickness", "Spessori", "Spessore"] (some "spessori")
  let characteristics_block := extract_detail_block_bs4 doc ["Characteristics", "Caratteristiche"] (some "caratteristiche")
  { formats := extract_list_items_text doc formats_block
    finishing := extract_list_items_text doc finishing_block
    thickness := extract_list_items_text doc thickness_block
    characteristicsText := blockParasText doc characteristics_block }

-- ---------------------------------------------------------------------------
-- Orchestrator merge logic of parse_product_page
-- ---------------------------------------------------------------------------

/-- The guard `not (olculer_list and yuzey_list and kalinlik_list)` of
`parse_product_page` deciding whether `extract_details_selenium` is called. -/
def detailsNeedSelenium (b : PyDetails) : Bool :=
  !(!b.formats.isEmpty && !b.finishing.isEmpty && !b.thickness.isEmpty)

/-- The detail merge of `parse_product_page`: when the guard fires, each
group still empty adopts a nonempty rendered value; otherwise the
structural result is returned untouched (the rendered tier is not invoked). -/
def mergeDetails (b sel : PyDetails) : PyDetails :=
  if detailsNeedSelenium b then
    { formats := if b.formats.isEmpty && !sel.formats.isEmpty then sel.formats else b.formats
      finishing := if b.finishing.isEmpty && !sel.finishing.isEmpty then sel.finishing else b.finishing
      thickness := if b.thickness.isEmpty && !sel.thickness.isEmpty then sel.thickness else b.thickness
      characteristicsText :=
        if b.characteristicsText = "" && !(sel.characteristicsText = "") then
          sel.characteristicsText
        else b.characteristicsText }
  else b

/-- The texture fallback of `parse_product_page`: the selenium result is
used only when the bs4 result is empty. -/
def mergeTextures (texBs4 texSel : String) : String :=
  if texBs4 = "" then texSel else texBs4

-- ---------------------------------------------------------------------------
-- Rendered-tier detail extraction (extract_details_selenium)
-- ---------------------------------------------------------------------------

/-- The in-page script's `norm`: `s => (s||"").trim().toLowerCase()`. -/
def jsNorm (s : String) : String := pyLower (pyStrip s)

/-- Python `s.replace("  ", " ")`: left-to-right non-overlapping
replacement of two spaces by one. -/
def replTwoSpace : List Char → List Char
  | [] => []
  | [c] => [c]
  | c1 :: c2 :: rest =>
    if c1 = ' ' ∧ c2 = ' ' then ' ' :: replTwoSpace rest
    else c1 :: replTwoSpace (c2 :: rest)

/-- Post-processing `s.replace("  ", " ").strip()` that
`extract_details_selenium` applies to each rendered list entry. -/
def selPostProcess (s : String) : String := pyStrip ⟨replTwoSpace s.data⟩

/-- The `res` object built by the in-page classification script. -/
structure SelRes where
  formats : List String
  finishing : List String
  thickness : List String
  characteristics_text : String
deriving DecidableEq

/-- One iteration of the script's `for (const b of blocks)` loop: normalize
heading and modifier, collect normalized nonempty list items and paragraph
texts, and assign them to the first matching kind. -/
def jsClassifyStep (res : SelRes) (b : DetailItem) : SelRes :=
  let title := jsNorm (b.heading.getD "")
  let mod := jsNorm (b.modifier.getD "")
  let items := (b.listItems.map jsNorm).filter fun s => !(s == "")
  let paras := joinSpace ((b.paragraphs.map jsNorm).filter fun s => !(s == ""))
  if ["formats", "formati", "formato"].contains title
      || ["formats", "formati", "formato"].contains mod then
    { res with formats := items }
  else if ["finishing", "finiture", "finitura"].contains title
      || ["finishing", "finiture", "finitura"].contains mod then
    { res with finishing := items }
  else if ["thickness", "spessori", "spessore"].contains title
      || ["thickness", "spessori", "spessore"].contains mod then
    { res with thickness := items }
  else if ["characteristics", "caratteristiche"].contains title
      || ["characteristics", "caratteristiche"].contains mod then
    { res with characteristics_text := paras }
  else res

/-- Environment of one `extract_details_selenium` call: whether driver
creation and navigation succeed, whether the wait for
`.exampleProductDetails` succeeds, whether script evaluation succeeds at
engine level, whether `.product-hero__details` exists, and the detail
blocks of the live DOM. -/
structure SelDetEnv where
  loadOk : Bool
  rootPresent : Bool
  scriptOk : Bool
  heroPresent : Bool
  blocks : List DetailItem
deriving DecidableEq

def emptyPyDetails : PyDetails := ⟨[], [], [], ""⟩

/-- Value of the classification script: all-empty when the hero root is
absent, otherwise the loop over the blocks. -/
def jsDetailsCollect (env : SelDetEnv) : SelRes :=
  if env.heroPresent then env.blocks.foldl jsClassifyStep ⟨[], [], [], ""⟩
  else ⟨[], [], [], ""⟩

/-- The `convert back to display form` block of `extract_details_selenium`. -/
def selConvert (data : SelRes) : PyDetails :=
  { formats := data.formats.map selPostProcess
    finishing := data.finishing.map selPostProcess
    thickness := data.thickness.map selPostProcess
    characteristicsText := pyStrip data.characteristics_text }

/-- Source `extract_details_selenium`.  Every failure commutes into the
all-empty initial `result`: a driver or navigation exception and a script
evaluation exception reach the outer `except`, a missed wait returns from
the inner `except`; all of them occur before the result fields are
assigned. -/
def extract_details_selenium (env : SelDetEnv) : PyDetails :=
  if !env.loadOk then emptyPyDetails
  else if !env.rootPresent then emptyPyDetails
  else if !env.scriptOk then emptyPyDetails
  else selConvert (jsDetailsCollect env)

-- ---------------------------------------------------------------------------
-- Rendered-tier texture extraction (extract_textures_selenium)
-- ---------------------------------------------------------------------------

/-- The URL list the texture collection script would produce from one node
if it ran: the trimmed `src`/`data-src`/first-`srcset` candidate followed,
for `img` elements, by the trimmed `currentSrc` property. -/
def jsTexNodeOut (n : TexNode) : List String :=
  let s0 := pyStrip (attrOr n.src (attrOr n.dataSrc ""))
  let s :=
    if s0 = "" && n.name == "source" then
      let first := (pySplitWs (pyStrip ⟨beforeChar ',' (attrOr n.srcset "").data⟩)).headD ""
      if first ≠ "" then first else s0
    else s0
  (if s ≠ "" then [s] else []) ++
    (if n.name == "img" then
      let cs := pyStrip (attrOr n.currentSrc "")
      if cs ≠ "" then [cs] else []
    else [])

/-- The page script passed verbatim to `execute_script` by
`extract_textures_selenium` to collect image and source URLs. -/
def texturesCollectScript : String := String.intercalate "\n" [
  "",
  "            const out = [];",
  "            const c = document.querySelector(\x27div.exampleContainer\");",
  "            if (!c) return out;",
  "            const nodes = c.querySelectorAll(\x27img.picture__image, source[srcset]\x27);",
  "            for (const node of nodes) \x7b",
  "                let s = (node.getAttribute(\x27src\x27) || node.getAttribute(\x27data-src\x27) || \x27\x27).trim();",
  "                if (!s && node.tagName.toLowerCase() === \x27source\x27) \x7b",
  "                    const first = (node.getAttribute(\x27srcset\x27) || \x27\x27).split(\x27,\x27)[0].trim().split(/\\s+/)[0];",
  "                    if (first) s = first;",
  "                \x7d",
  "                if (s) out.push(s);",
  "                if (node.tagName.toLowerCase() === \x27img\x27) \x7b",
  "                    const cs = (node.currentSrc || \x27\x27).trim();",
  "                    if (cs) out.push(cs);",
  "                \x7d",
  "            \x7d",
  "            return out;",
  "        "]

/-- Scanner for the one lexical property of JavaScript needed here: a
string literal opened with a single or double quote must close on the same
line (line terminators are not allowed inside ordinary string literals).
The first argument is the open quote, if the scanner is inside a literal;
a backslash escapes the next character.  Returns true when some literal is
left unterminated.  This under-approximates full JS lexing: it reports no
false positive on quote-free or correctly quoted code. -/
def jsScanUnterminated : Option Char → List Char → Bool
  | none, [] => false
  | some _, [] => true
  | none, c :: cs =>
    if c = '\x27' || c = '"' then jsScanUnterminated (some c) cs
    else jsScanUnterminated none cs
  | some q, c :: cs =>
    if c = '\n' then true
    else if c = '\\' then
      match cs with
      | [] => true
      | _ :: cs2 => jsScanUnterminated (some q) cs2
    else if c = q then jsScanUnterminated none cs
    else jsScanUnterminated (some q) cs

/-- Whether a script fails JavaScript lexing with an unterminated string
literal, making `execute_script` raise before running any of it. -/
def jsHasUnterminatedLiteral (s : String) : Bool := jsScanUnterminated none s.data

/-- Evaluation of a script through `execute_script`: a script that does not
lex raises (Selenium surfaces it as a JavascriptException); otherwise the
value the script computes is returned. -/
def execJsStrings (script : String) (wouldReturn : List String) : Except Unit (List String) :=
  if jsHasUnterminatedLiteral script then Except.error () else Except.ok wouldReturn

/-- Environment of one `extract_textures_selenium` call: driver creation
and navigation, the wait for `section.ExampleSection`, the wait for
`div.ExampleContainer`, and the nodes of the live texture container. -/
structure SelTexEnv where
  loadOk : Bool
  sectionPresent : Bool
  containerPresent : Bool
  dom : List TexNode
deriving DecidableEq

/-- Source `extract_textures_selenium`: failures of driver, navigation or
either wait yield the empty string; otherwise the collection script is
evaluated and its URLs are unwrapped, de-duplicated and joined exactly as
in the bs4 tier. -/
def extract_textures_selenium (env : SelTexEnv) : String :=
  if !env.loadOk then ""
  else if !env.sectionPresent then ""
  else if !env.containerPresent then ""
  else
    match execJsStrings texturesCollectScript ((env.dom.map jsTexNodeOut).join) with
    | Except.error _ => ""
    | Except.ok srcs => joinBar ((srcs.map unwrapProxied).foldl dedupStep [])

-- ---------------------------------------------------------------------------
-- Shared browser session lifecycle (_ensure_tex_driver / main)
-- ---------------------------------------------------------------------------

/-- Observable state of the module-level `_tex_driver`: whether a driver is
live, how many drivers were ever constructed, and how many `quit()` calls
were issued. -/
structure DriverState where
  live : Bool
  created : Nat
  quits : Nat
deriving DecidableEq

/-- Source `_ensure_tex_driver`: a no-op when a driver exists, otherwise a
single construction. -/
def ensure_tex_driver (s : DriverState) : DriverState :=
  if s.live then s else { live := true, created := s.created + 1, quits := s.quits }

/-- One product of a run, abstracted to what touches the driver: how many
times processing it calls `_ensure_tex_driver` (0, 1 or 2 in the program,
via the two selenium fallbacks), and whether an exception escapes the
product processing. -/
structure ProductStep where
  ensureCalls : Nat
  raises : Bool

def iterEnsure : Nat → DriverState → DriverState
  | 0, s => s
  | n + 1, s => iterEnsure n (ensure_tex_driver s)

/-- The product loop of `main` within the `try`: processes products in
order until the first escaping exception; the Bool records whether the loop
ended by exception. -/
def runProducts : List ProductStep → DriverState → DriverState × Bool
  | [], s => (s, false)
  | p :: ps, s =>
    let s2 := iterEnsure p.ensureCalls s
    if p.raises then (s2, true) else runProducts ps s2

/-- The `finally` block of `main`: `quit()` the driver when one exists
(exceptions from the call swallowed), then reset `_tex_driver` to `None`.
It runs on every exit path: normal completion, the early returns, and an
exception escaping the `try` body. -/
def shutdownDriver (s : DriverState) : DriverState :=
  if s.live then { live := false, created := s.created, quits := s.quits + 1 }
  else { s with live := false }

def initialDriverState : DriverState := ⟨false, 0, 0⟩

/-- Driver lifecycle of one `main` invocation over a list of products. -/
def mainRun (ps : List ProductStep) : DriverState :=
  shutdownDriver (runProducts ps initialDriverState).1

-- ---------------------------------------------------------------------------
-- Concrete documents and environments used by counterexamples and witnesses
-- ---------------------------------------------------------------------------

/-- Structural details with all three list groups filled but an empty
description, as extracted from a page whose Characteristics panel is
missing statically. -/
def c1StructuralDetails : PyDetails := ⟨["60x60"], ["matt"], ["9 mm"], ""⟩

/-- A document with the details root present and two distinct, correctly
marked panels: a Formats panel and a Thickness panel. -/
def c3Doc : DetailsDoc :=
  ⟨true,
   [⟨some "formati", some "Formats", ["60X60"], []⟩,
    ⟨some "spessori", some "Thickness", ["9 mm"], []⟩]⟩

/-- A texture container holding one statically delivered image. -/
def c7Nodes : List TexNode :=
  [⟨"img", some "https://cdn.example.com/a.jpg", none, none, none⟩]

/-- A document whose Formats panel carries mixed-case text, reachable only
through the heading-text fallback (no details root). -/
def c10Doc : DetailsDoc :=
  ⟨false, [⟨some "formati", some "Formats", ["30X60 Rett."], []⟩]⟩

/-- The same page rendered: every step succeeds and the live DOM holds the
same detail blocks as the static document. -/
def c10Env : SelDetEnv := ⟨true, true, true, true, c10Doc.items⟩

/-- A character list already in lower case: the lowering map fixes it. -/
def lowerFixedL (l : List Char) : Prop := l.map pyLowerChar = l

/-- A string already in lower case. -/
def lowerFixedS (s : String) : Prop := pyLower s = s

/-- All strings held by the script result object are lower-cased. -/
def resLF (r : SelRes) : Prop :=
  (∀ s ∈ r.formats, lowerFixedS s) ∧ (∀ s ∈ r.finishing, lowerFixedS s) ∧
  (∀ s ∈ r.thickness, lowerFixedS s) ∧ lowerFixedS r.characteristics_text

/-- All strings of an extracted detail record are lower-cased. -/
def pdLF (d : PyDetails) : Prop :=
  (∀ s ∈ d.formats, lowerFixedS s) ∧ (∀ s ∈ d.finishing, lowerFixedS s) ∧
  (∀ s ∈ d.thickness, lowerFixedS s) ∧ lowerFixedS d.characteristicsText

-- ---------------------------------------------------------------------------
-- Lemmas about the character lowering map
-- ---------------------------------------------------------------------------

theorem lowerNat_fix {m : Nat} (h1 : ¬(65 ≤ m ∧ m ≤ 90))
    (h2 : ¬((192 ≤ m ∧ m ≤ 222) ∧ m ≠ 215)) (h3 : m ≠ 286) (h4 : m ≠ 350) :
    lowerNat m = m := by
  unfold lowerNat
  rw [if_neg h1, if_neg h2, if_neg h3, if_neg h4]

theorem lowerNat_idem (n : Nat) : lowerNat (lowerNat n) = lowerNat n := by
  by_cases h1 : 65 ≤ n ∧ n ≤ 90
  · have e : lowerNat n = n + 32 := by unfold lowerNat; rw [if_pos h1]
    rw [e]
    exact lowerNat_fix (by omega) (by omega) (by omega) (by omega)
  · by_cases h2 : (192 ≤ n ∧ n ≤ 222) ∧ n ≠ 215
    · have e : lowerNat n = n + 32 := by unfold lowerNat; rw [if_neg h1, if_pos h2]
      rw [e]
      exact lowerNat_fix (by omega) (by omega) (by omega) (by omega)
    · by_cases h3 : n = 286
      · subst h3; decide
      · by_cases h4 : n = 350
        · subst h4; decide
        · have e : lowerNat n = n := lowerNat_fix h1 h2 h3 h4
          rw [e, e]

theorem lowerNat_isValidChar {n : Nat} (h : n.isValidChar) :
    (lowerNat n).isValidChar := by
  unfold lowerNat
  split
  · exact Or.inl (by omega)
  · split
    · exact Or.inl (by omega)
    · split
      · exact Or.inl (by omega)
      · split
        · exact Or.inl (by omega)
        · exact h

theorem charToNat_ofNat {n : Nat} (h : n.isValidChar) : (Char.ofNat n).toNat = n := by
  unfold Char.ofNat
  rw [dif_pos h]
  rfl

theorem char_toNat_isValidChar (c : Char) : c.toNat.isValidChar := c.valid

theorem pyLowerChar_idem (c : Char) : pyLowerChar (pyLowerChar c) = pyLowerChar c := by
  unfold pyLowerChar
  rw [charToNat_ofNat (lowerNat_isValidChar (char_toNat_isValidChar c)), lowerNat_idem]

theorem lowerFixedS_iff (s : String) : lowerFixedS s ↔ lowerFixedL s.data := by
  cases s with
  | mk d => simp [lowerFixedS, lowerFixedL, pyLower, String.ext_iff]

theorem lowerFixedL_iff_mem (l : List Char) :
    lowerFixedL l ↔ ∀ c ∈ l, pyLowerChar c = c := by
  unfold lowerFixedL
  induction l with
  | nil => simp
  | cons a t ih => simp [ih]

theorem lowerFixedL_map (l : List Char) : lowerFixedL (l.map pyLowerChar) := by
  unfold lowerFixedL
  rw [List.map_map]
  exact List.map_congr_left fun a _ => pyLowerChar_idem a

theorem lowerFixedL_of_subset {l l' : List Char} (hsub : ∀ c ∈ l', c ∈ l)
    (h : lowerFixedL l) : lowerFixedL l' := by
  rw [lowerFixedL_iff_mem] at h ⊢
  exact fun c hc => h c (hsub c hc)

theorem mem_stripL {l : List Char} {c : Char} (h : c ∈ stripL l) : c ∈ l := by
  unfold stripL at h
  rw [List.mem_reverse] at h
  have h2 := (List.dropWhile_sublist pyIsSpace).mem h
  rw [List.mem_reverse] at h2
  exact (List.dropWhile_sublist pyIsSpace).mem h2

theorem lowerFixedL_stripL {l : List Char} (h : lowerFixedL l) :
    lowerFixedL (stripL l) :=
  lowerFixedL_of_subset (fun _ hc => mem_stripL hc) h

theorem lowerFixedS_pyStrip {s : String} (h : lowerFixedS s) :
    lowerFixedS (pyStrip s) := by
  rw [lowerFixedS_iff] at h ⊢
  exact lowerFixedL_stripL h

theorem lowerFixedS_pyLower (s : String) : lowerFixedS (pyLower s) := by
  rw [lowerFixedS_iff]
  exact lowerFixedL_map s.data

theorem lowerFixedS_jsNorm (s : String) : lowerFixedS (jsNorm s) :=
  lowerFixedS_pyLower (pyStrip s)

theorem mem_replTwoSpace {l : List Char} : ∀ c ∈ replTwoSpace l, c ∈ l ∨ c = ' ' := by
  induction l using replTwoSpace.induct with
  | case1 =>
    intro c hc
    rw [replTwoSpace] at hc
    cases hc
  | case2 c0 =>
    intro c hc
    rw [replTwoSpace] at hc
    exact Or.inl hc
  | case3 c1 c2 rest h ih =>
    intro c hc
    rw [replTwoSpace, if_pos h] at hc
    rcases List.mem_cons.mp hc with h2 | h2
    · exact Or.inr h2
    · rcases ih c h2 with h3 | h3
      · exact Or.inl (List.mem_cons_of_mem _ (List.mem_cons_of_mem _ h3))
      · exact Or.inr h3
  | case4 c1 c2 rest h ih =>
    intro c hc
    rw [replTwoSpace, if_neg h] at hc
    rcases List.mem_cons.mp hc with h2 | h2
    · exact Or.inl (by simp [h2])
    · rcases ih c h2 with h3 | h3
      · exact Or.inl (List.mem_cons_of_mem _ h3)
      · exact Or.inr h3

theorem lowerFixedL_replTwoSpace {l : List Char} (h : lowerFixedL l) :
    lowerFixedL (replTwoSpace l) := by
  rw [lowerFixedL_iff_mem] at h ⊢
  intro c hc
  rcases mem_replTwoSpace c hc with h2 | h2
  · exact h c h2
  · subst h2; decide

theorem lowerFixedS_selPostProcess {s : String} (h : lowerFixedS s) :
    lowerFixedS (selPostProcess s) := by
  unfold selPostProcess
  apply lowerFixedS_pyStrip
  rw [lowerFixedS_iff] at h ⊢
  exact lowerFixedL_replTwoSpace h

theorem lowerFixedS_append {a b : String} (ha : lowerFixedS a) (hb : lowerFixedS b) :
    lowerFixedS (a ++ b) := by
  rw [lowerFixedS_iff] at ha hb ⊢
  rw [String.data_append]
  unfold lowerFixedL at ha hb ⊢
  rw [List.map_append, ha, hb]

theorem lowerFixedS_joinSpace {parts : List String}
    (h : ∀ p ∈ parts, lowerFixedS p) : lowerFixedS (joinSpace parts) := by
  induction parts using joinSpace.induct with
  | case1 => rw [joinSpace]; rw [lowerFixedS_iff]; rfl
  | case2 x => rw [joinSpace]; exact h x (by simp)
  | case3 x y ys ih =>
    rw [joinSpace]
    apply lowerFixedS_append
    · apply lowerFixedS_append
      · exact h x (by simp)
      · rw [lowerFixedS_iff]; rfl
    · exact ih fun p hp => h p (List.mem_cons_of_mem _ hp)

theorem items_lowerFixed (b : DetailItem) :
    ∀ s ∈ (b.listItems.map jsNorm).filter (fun s => !(s == "")), lowerFixedS s := by
  intro s hs
  have hm := (List.mem_filter.mp hs).1
  rcases List.mem_map.mp hm with ⟨t, _, rfl⟩
  exact lowerFixedS_jsNorm t

theorem paras_lowerFixed (b : DetailItem) :
    lowerFixedS (joinSpace ((b.paragraphs.map jsNorm).filter (fun s => !(s == "")))) := by
  apply lowerFixedS_joinSpace
  intro p hp
  have hm := (List.mem_filter.mp hp).1
  rcases List.mem_map.mp hm with ⟨t, _, rfl⟩
  exact lowerFixedS_jsNorm t

theorem jsClassifyStep_resLF {r : SelRes} (b : DetailItem) (h : resLF r) :
    resLF (jsClassifyStep r b) := by
  rcases h with ⟨h1, h2, h3, h4⟩
  unfold jsClassifyStep
  dsimp only
  split
  · exact ⟨items_lowerFixed b, h2, h3, h4⟩
  · split
    · exact ⟨h1, items_lowerFixed b, h3, h4⟩
    · split
      · exact ⟨h1, h2, items_lowerFixed b, h4⟩
      · split
        · exact ⟨h1, h2, h3, paras_lowerFixed b⟩
        · exact ⟨h1, h2, h3, h4⟩

theorem foldl_jsClassifyStep_resLF (bs : List DetailItem) {r : SelRes} (h : resLF r) :
    resLF (bs.foldl jsClassifyStep r) := by
  induction bs generalizing r with
  | nil => exact h
  | cons b bs ih => exact ih (jsClassifyStep_resLF b h)

theorem emptyPyDetails_pdLF : pdLF emptyPyDetails := by
  refine ⟨?_, ?_, ?_, ?_⟩ <;> simp [emptyPyDetails]
  rw [lowerFixedS_iff]; rfl

theorem selConvert_pdLF {data : SelRes} (h : resLF data) : pdLF (selConvert data) := by
  rcases h with ⟨h1, h2, h3, h4⟩
  refine ⟨?_, ?_, ?_, lowerFixedS_pyStrip h4⟩ <;>
    · intro s hs
      rcases List.mem_map.mp hs with ⟨t, ht, rfl⟩
      first
      | exact lowerFixedS_selPostProcess (h1 t ht)
      | exact lowerFixedS_selPostProcess (h2 t ht)
      | exact lowerFixedS_selPostProcess (h3 t ht)

theorem extract_details_selenium_pdLF (env : SelDetEnv) :
    pdLF (extract_details_selenium env) := by
  unfold extract_details_selenium
  split
  · exact emptyPyDetails_pdLF
  · split
    · exact emptyPyDetails_pdLF
    · split
      · exact emptyPyDetails_pdLF
      · apply selConvert_pdLF
        unfold jsDetailsCollect
        split
        · apply foldl_jsClassifyStep_resLF
          refine ⟨by simp, by simp, by simp, ?_⟩
          rw [lowerFixedS_iff]; rfl
        · refine ⟨by simp, by simp, by simp, ?_⟩
          rw [lowerFixedS_iff]; rfl

-- ---------------------------------------------------------------------------
-- The seen-set loop computes first-seen-order de-duplication
-- ---------------------------------------------------------------------------

theorem memb_append (r x : String) (acc : List String) :
    memb r (acc ++ [x]) = (memb r acc || (x == r)) := by
  induction acc with
  | nil => simp [memb]
  | cons a as ih => simp [memb, ih, Bool.or_assoc]

theorem filter_memb_append (xs : List String) (acc : List String) (x : String) :
    (xs.filter fun y => !(y == "") && !(memb y (acc ++ [x]))) =
      ((xs.filter fun y => !(y == "") && !(memb y acc)).filter fun y => !(y == x)) := by
  rw [List.filter_filter]
  apply List.filter_congr
  intro a _
  rw [memb_append, Bool.not_or, @Bool.beq_comm String _ _ x a]
  cases h1 : (a == "") <;> cases h2 : memb a acc <;> cases h3 : (a == x) <;> rfl

theorem dedup_fold_firstSeen (xs acc : List String) :
    xs.foldl dedupStep acc =
      acc ++ firstSeenDedup (xs.filter fun y => !(y == "") && !(memb y acc)) := by
  induction xs generalizing acc with
  | nil => simp [firstSeenDedup]
  | cons x xs ih =>
    simp only [List.foldl_cons, List.filter_cons]
    by_cases hx : (x == "") = true
    · have hstep : dedupStep acc x = acc := by simp [dedupStep, hx]
      have hcond : (!(x == "") && !(memb x acc)) = false := by simp [hx]
      rw [hstep, hcond]
      simp only [Bool.false_eq_true, if_false]
      exact ih acc
    · have hx2 : (x == "") = false := by
        cases hxx : (x == "") with
        | false => rfl
        | true => exact absurd hxx hx
      by_cases hm : memb x acc = true
      · have hstep : dedupStep acc x = acc := by simp [dedupStep, hm]
        have hcond : (!(x == "") && !(memb x acc)) = false := by simp [hm]
        rw [hstep, hcond]
        simp only [Bool.false_eq_true, if_false]
        exact ih acc
      · have hm2 : memb x acc = false := by
          cases hmm : memb x acc with
          | false => rfl
          | true => exact absurd hmm hm
        have hstep : dedupStep acc x = acc ++ [x] := by simp [dedupStep, hx2, hm2]
        have hcond : (!(x == "") && !(memb x acc)) = true := by simp [hx2, hm2]
        rw [hstep, ih (acc ++ [x]), hcond]
        simp only [if_pos]
        rw [filter_memb_append, firstSeenDedup]
        simp [List.append_assoc]

-- ---------------------------------------------------------------------------
-- Driver lifecycle invariant
-- ---------------------------------------------------------------------------

theorem ensure_tex_driver_inv {s : DriverState}
    (h : s.quits = 0 ∧ s.created ≤ 1 ∧ (s.live = true ↔ s.created = 1)) :
    (ensure_tex_driver s).quits = 0 ∧ (ensure_tex_driver s).created ≤ 1 ∧
      ((ensure_tex_driver s).live = true ↔ (ensure_tex_driver s).created = 1) := by
  rcases h with ⟨hq, hc, hl⟩
  unfold ensure_tex_driver
  split
  · exact ⟨hq, hc, hl⟩
  · next hlive =>
    have : s.created = 0 := by
      rcases Nat.le_one_iff_eq_zero_or_eq_one.mp hc with h0 | h1
      · exact h0
      · exact absurd (hl.mpr h1) hlive
    simp [this, hq]

theorem iterEnsure_inv (n : Nat) {s : DriverState}
    (h : s.quits = 0 ∧ s.created ≤ 1 ∧ (s.live = true ↔ s.created = 1)) :
    (iterEnsure n s).quits = 0 ∧ (iterEnsure n s).created ≤ 1 ∧
      ((iterEnsure n s).live = true ↔ (iterEnsure n s).created = 1) := by
  induction n generalizing s with
  | zero => exact h
  | succ n ih => exact ih (ensure_tex_driver_inv h)

theorem runProducts_inv (ps : List ProductStep) {s : DriverState}
    (h : s.quits = 0 ∧ s.created ≤ 1 ∧ (s.live = true ↔ s.created = 1)) :
    (runProducts ps s).1.quits = 0 ∧ (runProducts ps s).1.created ≤ 1 ∧
      ((runProducts ps s).1.live = true ↔ (runProducts ps s).1.created = 1) := by
  induction ps generalizing s with
  | nil => exact h
  | cons p ps ih =>
    unfold runProducts
    dsimp only
    split
    · exact iterEnsure_inv p.ensureCalls h
    · exact ih (iterEnsure_inv p.ensureCalls h)

-- ---------------------------------------------------------------------------
-- Helper for the unwrap fixed-point argument
-- ---------------------------------------------------------------------------

theorem pyStartsWith_dslash_false {s : String} (h : pyStartsWith "/" s = false) :
    pyStartsWith "//" s = false := by
  unfold pyStartsWith at h ⊢
  have hd1 : ("/" : String).data = ['/'] := rfl
  have hd2 : ("//" : String).data = ['/', '/'] := rfl
  rw [hd1] at h
  rw [hd2]
  cases hs : s.data with
  | nil => rfl
  | cons c cs =>
    rw [hs] at h
    unfold startsWithL at h ⊢
    rcases Bool.and_eq_false_iff.mp h with h2 | h2
    · simp [h2]
    · cases h2

-- ---------------------------------------------------------------------------
-- Claim theorems
-- ---------------------------------------------------------------------------

/-- Claim C1, counterexample: when all three list groups are non-empty but
the Characteristics text is empty, `parse_product_page` does not invoke the
rendered tier, so the invocation guard is not equivalent to the four-part
condition of the claim. -/
theorem c1_claim_counterexample :
    ¬ (detailsNeedSelenium c1StructuralDetails = true ↔
      (c1StructuralDetails.formats = [] ∨ c1StructuralDetails.finishing = [] ∨
       c1StructuralDetails.thickness = [] ∨
       c1StructuralDetails.characteristicsText = "")) := by
  decide

/-- Claim C1 as amended: `extract_details_selenium` is invoked by
`parse_product_page` if and only if at least one of the Formats, Finishing,
Thickness groups of the structural tier is empty; the emptiness of the
Characteristics text plays no part in the guard. -/
theorem c1_amended_invocation_guard (b : PyDetails) :
    detailsNeedSelenium b = true ↔
      (b.formats = [] ∨ b.finishing = [] ∨ b.thickness = []) := by
  rcases b with ⟨f, y, k, c⟩
  simp [detailsNeedSelenium, List.isEmpty_iff, or_assoc]

/-- Claim C2: a field group that is non-empty after the structural
extraction is never replaced by a rendered value in the merge of
`parse_product_page`, while an empty structural group adopts a nonempty
rendered value, and the texture field adopts the rendered result exactly
when the structural result is empty. -/
theorem c2_structural_never_overwritten (b sel : PyDetails) (tb ts : String) :
    (b.formats ≠ [] → (mergeDetails b sel).formats = b.formats) ∧
    (b.finishing ≠ [] → (mergeDetails b sel).finishing = b.finishing) ∧
    (b.thickness ≠ [] → (mergeDetails b sel).thickness = b.thickness) ∧
    (b.characteristicsText ≠ "" →
      (mergeDetails b sel).characteristicsText = b.characteristicsText) ∧
    (b.formats = [] → sel.formats ≠ [] → (mergeDetails b sel).formats = sel.formats) ∧
    (tb ≠ "" → mergeTextures tb ts = tb) ∧
    (tb = "" → mergeTextures tb ts = ts) := by
  have hne : ∀ (l : List String), l ≠ [] → l.isEmpty = false := by
    intro l h
    cases l with
    | nil => exact absurd rfl h
    | cons a t => rfl
  refine ⟨?_, ?_, ?_, ?_, ?_, ?_, ?_⟩
  · intro h
    unfold mergeDetails
    split
    · simp [hne _ h]
    · rfl
  · intro h
    unfold mergeDetails
    split
    · simp [hne _ h]
    · rfl
  · intro h
    unfold mergeDetails
    split
    · simp [hne _ h]
    · rfl
  · intro h
    unfold mergeDetails
    split
    · simp [h]
    · rfl
  · intro h1 h2
    have hg : detailsNeedSelenium b = true := by
      simp [detailsNeedSelenium, h1]
    unfold mergeDetails
    rw [if_pos hg]
    simp [h1, hne _ h2]
  · intro h
    unfold mergeTextures
    rw [if_neg h]
  · intro h
    unfold mergeTextures
    rw [if_pos h]

/-- Witness for claim C2 at concrete inputs, discharging each hypothesis. -/
theorem c2_witness :
    (mergeDetails ⟨["a"], ["b"], ["c"], "d"⟩ ⟨["z"], ["w"], ["v"], "e"⟩).formats = ["a"] ∧
    (mergeDetails ⟨[], ["b"], ["c"], "d"⟩ ⟨["z"], ["w"], ["v"], "e"⟩).finishing = ["b"] ∧
    (mergeDetails ⟨[], ["b"], ["c"], "d"⟩ ⟨["z"], ["w"], ["v"], "e"⟩).thickness = ["c"] ∧
    (mergeDetails ⟨[], ["b"], ["c"], "d"⟩ ⟨["z"], ["w"], ["v"], "e"⟩).characteristicsText = "d" ∧
    (mergeDetails ⟨[], ["b"], ["c"], "d"⟩ ⟨["z"], ["w"], ["v"], "e"⟩).formats = ["z"] ∧
    mergeTextures "t" "u" = "t" ∧
    mergeTextures "" "u" = "u" := by
  refine ⟨?_, ?_, ?_, ?_, ?_, ?_, ?_⟩
  · exact (c2_structural_never_overwritten ⟨["a"], ["b"], ["c"], "d"⟩ ⟨["z"], ["w"], ["v"], "e"⟩ "t" "u").1 (by decide)
  · exact (c2_structural_never_overwritten ⟨[], ["b"], ["c"], "d"⟩ ⟨["z"], ["w"], ["v"], "e"⟩ "t" "u").2.1 (by decide)
  · exact (c2_structural_never_overwritten ⟨[], ["b"], ["c"], "d"⟩ ⟨["z"], ["w"], ["v"], "e"⟩ "t" "u").2.2.1 (by decide)
  · exact (c2_structural_never_overwritten ⟨[], ["b"], ["c"], "d"⟩ ⟨["z"], ["w"], ["v"], "e"⟩ "t" "u").2.2.2.1 (by decide)
  · exact (c2_structural_never_overwritten ⟨[], ["b"], ["c"], "d"⟩ ⟨["z"], ["w"], ["v"], "e"⟩ "t" "u").2.2.2.2.1 rfl (by decide)
  · exact (c2_structural_never_overwritten ⟨["a"], ["b"], ["c"], "d"⟩ ⟨["z"], ["w"], ["v"], "e"⟩ "t" "u").2.2.2.2.2.1 (by decide)
  · exact (c2_structural_never_overwritten ⟨["a"], ["b"], ["c"], "d"⟩ ⟨["z"], ["w"], ["v"], "e"⟩ "" "u").2.2.2.2.2.2 rfl

/-- Claim C3, code evaluated at the failing input: on a document whose
details root is present together with two distinct correctly marked panels,
the modifier branch of `extract_detail_block_bs4` returns the same root
node for both the Formats and the Thickness kind (the `mod` argument never
reaches the selector), so both groups collapse to the union of the two
panels' list items. -/
theorem c3_modifier_branch_collapses :
    extract_detail_block_bs4 c3Doc ["Formats", "Formati", "Formato"] (some "formati") =
        some BlockRef.rootRef ∧
    extract_detail_block_bs4 c3Doc ["Thickness", "Spessori", "Spessore"] (some "spessori") =
        some BlockRef.rootRef ∧
    (extract_details_bs4 c3Doc).formats = (extract_details_bs4 c3Doc).thickness ∧
    (extract_details_bs4 c3Doc).formats = ["60X60", "9 mm"] := by
  decide

/-- Claim C4, counterexample: the unwrap is not idempotent when the `url`
query value is itself site-relative; `/api/image?url=/foo` unwraps to
`/foo`, which unwraps again to the absolutized URL. -/
theorem c4_claim_counterexample :
    unwrapProxied (unwrapProxied "/api/image?url=/foo") ≠
      unwrapProxied "/api/image?url=/foo" := by
  decide

/-- Claim C4 as amended: `_unwrap_proxied` is a fixed point on every output
that is not site-relative (no leading slash) and is not itself a proxy URL
(the `api/image` and `url=` markers are not both present); in particular a
second application leaves such outputs unchanged. -/
theorem c4_amended_unwrap_idem (x : String)
    (h1 : pyStartsWith "/" (unwrapProxied x) = false)
    (h2 : (pyContainsSub "api/image" (unwrapProxied x) &&
      pyContainsSub "url=" (unwrapProxied x)) = false) :
    unwrapProxied (unwrapProxied x) = unwrapProxied x := by
  by_cases hy : unwrapProxied x = ""
  · rw [hy]
    rfl
  · have hds : pyStartsWith "//" (unwrapProxied x) = false := pyStartsWith_dslash_false h1
    set y := unwrapProxied x with hydef
    rw [unwrapProxied]
    rw [if_neg hy]
    simp [hds, h1, h2]

/-- Witness for the amended claim C4: an absolute non-proxy URL is a fixed
point of a second unwrap. -/
theorem c4_amended_witness :
    unwrapProxied (unwrapProxied "https://cdn.example.com/a.jpg") =
      unwrapProxied "https://cdn.example.com/a.jpg" :=
  c4_amended_unwrap_idem "https://cdn.example.com/a.jpg" (by decide) (by decide)

/-- Claim C5, counterexample: `slugify` is not accent-insensitive for the
Latin accents outside its fixed transliteration table; the two spellings of
the claim slugify differently. -/
theorem c5_claim_counterexample : slugify "Café Grès" ≠ slugify "cafe gres" := by
  decide

/-- Claim C5 as amended: `slugify` is deterministic and case-insensitive
(inputs with the same lower-casing slugify identically), and
accent-insensitive exactly for the transliterated set of Turkish accented
letters; accented characters outside that set are stripped, so
`slugify "Café Grès"` is `caf_grs`, not `cafe_gres`. -/
theorem c5_amended_slugify :
    (∀ s t : String, pyLower s = pyLower t → slugify s = slugify t) ∧
    slugify "Çöl Gücü" = slugify "col gucu" ∧
    slugify "Café Grès" = "caf_grs" := by
  refine ⟨?_, by decide, by decide⟩
  intro s t h
  unfold slugify
  rw [h]

/-- Witness for the amended claim C5: case-insensitivity at a concrete pair. -/
theorem c5_amended_witness : slugify "GRES" = slugify "gres" :=
  c5_amended_slugify.1 "GRES" "gres" (by decide)

/-- Claim C6: on every document, the structural texture extraction returns
the unwrapped candidates de-duplicated in first-seen order and joined with
the bar separator, and the empty string when the section or container is
absent. -/
theorem c6_bs4_textures_spec :
    extract_textures_bs4 TexDoc.noSection = "" ∧
    extract_textures_bs4 TexDoc.noContainer = "" ∧
    ∀ ns : List TexNode,
      extract_textures_bs4 (TexDoc.withNodes ns) =
        joinBar (firstSeenDedup
          ((ns.map fun n => unwrapProxied (nodeRawSrc n)).filter fun y => !(y == ""))) := by
  refine ⟨rfl, rfl, ?_⟩
  intro ns
  show joinBar _ = _
  rw [dedup_fold_firstSeen]
  simp [memb]

/-- Claim C7, code evaluated at the failing input: the texture collection
script does not lex (its `querySelector` argument opens with a single quote
and is never closed before the line ends), so `extract_textures_selenium`
returns the empty string on every environment, including one whose
container holds the same node from which the structural tier extracts a
URL. -/
theorem c7_rendered_textures_always_empty :
    (∀ env : SelTexEnv, extract_textures_selenium env = "") ∧
    jsHasUnterminatedLiteral texturesCollectScript = true ∧
    extract_textures_bs4 (TexDoc.withNodes c7Nodes) = "https://cdn.example.com/a.jpg" := by
  have hscript : jsHasUnterminatedLiteral texturesCollectScript = true := by decide
  refine ⟨?_, hscript, by decide⟩
  intro env
  simp [extract_textures_selenium, execJsStrings, hscript]

/-- Claim C8: the rendered-tier extraction functions contain every driver,
navigation, wait and script failure; the texture tier degrades to the empty
string and the detail tier to the record with all four groups empty. -/
theorem c8_failures_degrade_to_empty :
    (∀ env : SelTexEnv,
      env.loadOk = false ∨ env.sectionPresent = false ∨ env.containerPresent = false →
      extract_textures_selenium env = "") ∧
    (∀ env : SelDetEnv,
      env.loadOk = false ∨ env.rootPresent = false ∨ env.scriptOk = false →
      extract_details_selenium env = emptyPyDetails) := by
  constructor
  · intro env h
    rcases h with h | h | h <;> simp [extract_textures_selenium, h]
  · intro env h
    rcases h with h | h | h <;> simp [extract_details_selenium, h]

/-- Witness for claim C8: a failed navigation yields the empty texture
string and a missed details wait yields the all-empty detail record. -/
theorem c8_witness :
    extract_textures_selenium ⟨false, true, true, []⟩ = "" ∧
    extract_details_selenium ⟨true, false, true, true, []⟩ = emptyPyDetails :=
  ⟨c8_failures_degrade_to_empty.1 ⟨false, true, true, []⟩ (Or.inl rfl),
   c8_failures_degrade_to_empty.2 ⟨true, false, true, true, []⟩ (Or.inr (Or.inl rfl))⟩

/-- Claim C9: `_ensure_tex_driver` is idempotent, and across any run the
browser session is created at most once and torn down exactly as many times
as it was created, with no live driver after `main` finishes, on every exit
path including an exception raised mid-run. -/
theorem c9_single_session_lifecycle :
    (∀ s : DriverState, ensure_tex_driver (ensure_tex_driver s) = ensure_tex_driver s) ∧
    (∀ ps : List ProductStep,
      (mainRun ps).created ≤ 1 ∧ (mainRun ps).quits = (mainRun ps).created ∧
        (mainRun ps).live = false) := by
  constructor
  · intro s
    by_cases h : s.live = true
    · simp [ensure_tex_driver, h]
    · simp [ensure_tex_driver, h]
  · intro ps
    have hinv := @runProducts_inv ps initialDriverState ⟨rfl, by decide, by decide⟩
    rcases hinv with ⟨hq, hc, hl⟩
    unfold mainRun shutdownDriver
    split
    · next hlive =>
      have hc1 := hl.mp hlive
      simp [hc1, hq]
    · next hlive =>
      have hc0 : (runProducts ps initialDriverState).1.created = 0 := by
        rcases Nat.le_one_iff_eq_zero_or_eq_one.mp hc with h0 | h1
        · exact h0
        · exact absurd (hl.mpr h1) hlive
      simp [hc0, hq]

/-- Claim C10: every string produced by the rendered-tier detail extraction
is lower-cased (a fixed point of the lowering map), whereas the structural
tier preserves the original case of the same content: on the same document
the structural tier yields the mixed-case `30X60 Rett.` and the rendered
tier yields `30x60 rett.`. -/
theorem c10_rendered_tier_lowercases :
    (∀ env : SelDetEnv, ∀ s : String,
      (s ∈ (extract_details_selenium env).formats ∨
       s ∈ (extract_details_selenium env).finishing ∨
       s ∈ (extract_details_selenium env).thickness ∨
       s = (extract_details_selenium env).characteristicsText) →
      pyLower s = s) ∧
    (extract_details_bs4 c10Doc).formats = ["30X60 Rett."] ∧
    (extract_details_selenium c10Env).formats = ["30x60 rett."] := by
  refine ⟨?_, by decide, by decide⟩
  intro env s hmem
  have hpd := extract_details_selenium_pdLF env
  rcases hpd with ⟨h1, h2, h3, h4⟩
  rcases hmem with h | h | h | h
  · exact h1 s h
  · exact h2 s h
  · exact h3 s h
  · rw [h]
    exact h4

/-- Witness for claim C10: the rendered value of the example document is a
fixed point of the lowering map. -/
theorem c10_witness : pyLower "30x60 rett." = "30x60 rett." :=
  c10_rendered_tier_lowercases.1 c10Env "30x60 rett." (Or.inl (by decide))
